import Mathlib

/-!
Verification of the non-destructive layer/history compositing engine of the
W3J Studio editor (src/src/App.tsx), as a shallow embedding in Lean.

The embedding models the history store and its operations exactly as the
React component mutates them: an `AppState` is one history snapshot
(base image file, its object URL, and the ordered layer list), a
`HistoryState` is the pair of the `history` array and the `historyIndex`
pointer, extended with a `released` ledger that records every object URL
passed to URL.revokeObjectURL (the ResourceLifecycle of the spec).
External effects (the generative-AI service, image decoding, canvas 2d
context acquisition) are passed in as explicit oracles, and each
event-handler is a pure function from the pre-state and the oracle results
to an outcome.
-/

/-- A File object: name, MIME type and payload.  The byte payload produced
by atob is kept abstract as its base64 text (the code never inspects the
bytes; it only repackages them). -/
structure FileV where
  name : String
  mime : String
  data : String
deriving DecidableEq, Repr

/-- An overlay layer, as in App.tsx: stable id, the data URL of the
AI-produced raster, and the provenance prompt. -/
structure Layer where
  id : String
  imageUrl : String
  prompt : String
deriving DecidableEq, Repr

/-- One history snapshot (interface AppState in App.tsx): the base image
file, the object URL created for it (modelled as a numeric resource
handle), and the ordered layer list. -/
structure AppState where
  imageFile : FileV
  imageUrl : Nat
  layers : List Layer
deriving DecidableEq, Repr

/-- The history store: the `history` array, the `historyIndex` pointer
(a JS number; −1 when empty), and the ledger of object URLs that have been
passed to URL.revokeObjectURL so far. -/
structure HistoryState where
  history : List AppState
  historyIndex : Int
  released : List Nat
deriving DecidableEq, Repr

/-- The store before any upload: `useState<AppState[]>([])`,
`useState<number>(-1)`. -/
def emptyHistory : HistoryState := ⟨[], -1, []⟩

/-- `currentState = history[historyIndex] ?? null` (App.tsx line 90). -/
def current (s : HistoryState) : Option AppState :=
  if s.historyIndex < 0 then none else s.history.get? s.historyIndex.toNat

/-- addImageToHistory (App.tsx lines 152-163): if the pointer is not at the
tail, revoke the object URL of every entry after the pointer
(`history.slice(historyIndex + 1)`), then truncate
(`history.slice(0, historyIndex + 1)`), append the new entry, and set the
pointer to the new last index. -/
def addImageToHistory (s : HistoryState) (newAppState : AppState) : HistoryState :=
  let revoked :=
    if s.historyIndex < (s.history.length : Int) - 1 then
      (s.history.drop (s.historyIndex + 1).toNat).map (fun st => st.imageUrl)
    else []
  let newHistory := s.history.take (s.historyIndex + 1).toNat ++ [newAppState]
  { history := newHistory
    historyIndex := (newHistory.length : Int) - 1
    released := s.released ++ revoked }

/-- handleUndo (App.tsx lines 442-450): guarded by
`canUndo = historyIndex > 0`. -/
def handleUndo (s : HistoryState) : HistoryState :=
  if 0 < s.historyIndex then { s with historyIndex := s.historyIndex - 1 } else s

/-- handleRedo (App.tsx lines 452-460): guarded by
`canRedo = historyIndex < history.length - 1`. -/
def handleRedo (s : HistoryState) : HistoryState :=
  if s.historyIndex < (s.history.length : Int) - 1 then
    { s with historyIndex := s.historyIndex + 1 }
  else s

/-- handleReset (App.tsx lines 462-471): when the store is nonempty it only
moves the pointer back to index 0; the history array is kept and nothing is
revoked. -/
def handleReset (s : HistoryState) : HistoryState :=
  if 0 < s.history.length then { s with historyIndex := 0 } else s

/-- handleUploadNew (App.tsx lines 473-482): empties the array and resets
the pointer to −1.  It performs no URL.revokeObjectURL call, so the
`released` ledger is unchanged. -/
def handleUploadNew (s : HistoryState) : HistoryState :=
  { s with history := [], historyIndex := -1 }

/-- handleImageUpload (App.tsx lines 165-178): replaces the store with a
single base-only entry (no revocation of the previous entries). -/
def handleImageUpload (s : HistoryState) (file : FileV) (url : Nat) : HistoryState :=
  { s with history := [⟨file, url, []⟩], historyIndex := 0 }

/-- The states reachable from the empty store by push/undo/redo. -/
inductive Reachable : HistoryState → Prop
  | init : Reachable emptyHistory
  | push : ∀ (s : HistoryState) (n : AppState), Reachable s → Reachable (addImageToHistory s n)
  | undo : ∀ (s : HistoryState), Reachable s → Reachable (handleUndo s)
  | redo : ∀ (s : HistoryState), Reachable s → Reachable (handleRedo s)

lemma addImageToHistory_history (s : HistoryState) (n : AppState) :
    (addImageToHistory s n).history
      = s.history.take (s.historyIndex + 1).toNat ++ [n] := rfl

lemma addImageToHistory_historyIndex (s : HistoryState) (n : AppState) :
    (addImageToHistory s n).historyIndex
      = ((addImageToHistory s n).history.length : Int) - 1 := rfl

lemma addImageToHistory_length_pos (s : HistoryState) (n : AppState) :
    1 ≤ (addImageToHistory s n).history.length := by
  rw [addImageToHistory_history]
  simp

lemma hist_inv (s : HistoryState) (h : Reachable s) :
    -1 ≤ s.historyIndex ∧ s.historyIndex ≤ (s.history.length : Int) - 1 ∧
      (s.historyIndex = -1 → s.history = []) := by
  induction h with
  | init => exact ⟨le_refl _, by simp [emptyHistory], fun _ => rfl⟩
  | push s n _ _ =>
    have h1 := addImageToHistory_historyIndex s n
    have h2 := addImageToHistory_length_pos s n
    refine ⟨by omega, by omega, fun hc => ?_⟩
    exfalso
    omega
  | undo s _ ih =>
    obtain ⟨a, b, c⟩ := ih
    unfold handleUndo
    split_ifs with hgt
    · refine ⟨by simp; omega, by simp; omega, fun hc => ?_⟩
      exfalso
      simp at hc
      omega
    · exact ⟨a, b, c⟩
  | redo s _ ih =>
    obtain ⟨a, b, c⟩ := ih
    unfold handleRedo
    split_ifs with hlt
    · refine ⟨by simp; omega, by simp; omega, fun hc => ?_⟩
      exfalso
      simp at hc
      omega
    · exact ⟨a, b, c⟩

lemma handleUndo_noop (s : HistoryState) (h : s.historyIndex ≤ 0) : handleUndo s = s := by
  unfold handleUndo
  rw [if_neg (by omega)]

lemma handleRedo_noop (s : HistoryState) (h : (s.history.length : Int) - 1 ≤ s.historyIndex) :
    handleRedo s = s := by
  unfold handleRedo
  rw [if_neg (by omega)]

/-- Claim C2: for every sequence of push, undo and redo operations starting
from the empty store, the history pointer stays within [−1, length−1]; it
equals −1 only when the store is empty; undo at index 0 and redo at the
last index leave the state unchanged. -/
theorem pointer_invariant_of_reachable (s : HistoryState) (h : Reachable s) :
    (-1 ≤ s.historyIndex ∧ s.historyIndex ≤ (s.history.length : Int) - 1)
    ∧ (s.historyIndex = -1 → s.history = [])
    ∧ (s.historyIndex = 0 → handleUndo s = s)
    ∧ (s.historyIndex = (s.history.length : Int) - 1 → handleRedo s = s) := by
  obtain ⟨a, b, c⟩ := hist_inv s h
  refine ⟨⟨a, b⟩, c, fun h0 => handleUndo_noop s (by omega), fun ht => handleRedo_noop s (by omega)⟩

/-- A concrete base file used by the witnesses. -/
def fileA : FileV := ⟨"a.png", "image/png", "AAAA"⟩

/-- A concrete base-only history entry owning object URL 1. -/
def entryA : AppState := ⟨fileA, 1, []⟩

/-- Witness for C2: the invariant, evaluated on the reachable store obtained
by one push onto the empty store. -/
theorem pointer_invariant_of_reachable_witness :
    (-1 ≤ (addImageToHistory emptyHistory entryA).historyIndex
      ∧ (addImageToHistory emptyHistory entryA).historyIndex
          ≤ ((addImageToHistory emptyHistory entryA).history.length : Int) - 1)
    ∧ ((addImageToHistory emptyHistory entryA).historyIndex = -1
        → (addImageToHistory emptyHistory entryA).history = [])
    ∧ ((addImageToHistory emptyHistory entryA).historyIndex = 0
        → handleUndo (addImageToHistory emptyHistory entryA) = addImageToHistory emptyHistory entryA)
    ∧ ((addImageToHistory emptyHistory entryA).historyIndex
          = ((addImageToHistory emptyHistory entryA).history.length : Int) - 1
        → handleRedo (addImageToHistory emptyHistory entryA) = addImageToHistory emptyHistory entryA) :=
  pointer_invariant_of_reachable (addImageToHistory emptyHistory entryA)
    (Reachable.push emptyHistory entryA Reachable.init)

/-- Claim C1: a push discards exactly the entries strictly after the current
pointer, revokes the object URL owned by each discarded entry, appends the
new entry, and sets the pointer to the new last index. -/
theorem addImageToHistory_push_spec (s : HistoryState) (n : AppState)
    (h : -1 ≤ s.historyIndex) :
    (addImageToHistory s n).history
        = s.history.take (s.historyIndex + 1).toNat ++ [n]
    ∧ (addImageToHistory s n).historyIndex
        = ((addImageToHistory s n).history.length : Int) - 1
    ∧ (addImageToHistory s n).released
        = s.released ++ (s.history.drop (s.historyIndex + 1).toNat).map (fun st => st.imageUrl) := by
  refine ⟨rfl, rfl, ?_⟩
  unfold addImageToHistory
  dsimp only
  split_ifs with hlt
  · rfl
  · have hle : s.history.length ≤ (s.historyIndex + 1).toNat := by omega
    rw [List.drop_eq_nil_of_le hle]
    simp

/-- A second concrete entry, owning object URL 2, with one layer. -/
def entryB : AppState := ⟨fileA, 2, [⟨"A", "data:image/png;base64,LLLL", "hat"⟩]⟩

/-- A third concrete entry, owning object URL 3. -/
def entryC : AppState := ⟨fileA, 3, []⟩

/-- Witness for C1: pushing entryC while the pointer sits at index 0 of a
two-entry store discards entryB and revokes its object URL 2. -/
theorem addImageToHistory_push_spec_witness :
    (addImageToHistory ⟨[entryA, entryB], 0, []⟩ entryC).history
        = ([entryA, entryB] : List AppState).take ((0 : Int) + 1).toNat ++ [entryC]
    ∧ (addImageToHistory ⟨[entryA, entryB], 0, []⟩ entryC).historyIndex
        = (((addImageToHistory ⟨[entryA, entryB], 0, []⟩ entryC).history.length : Int)) - 1
    ∧ (addImageToHistory ⟨[entryA, entryB], 0, []⟩ entryC).released
        = [] ++ (([entryA, entryB] : List AppState).drop ((0 : Int) + 1).toNat).map
            (fun st => st.imageUrl) :=
  addImageToHistory_push_spec ⟨[entryA, entryB], 0, []⟩ entryC (by norm_num)

/-- A JavaScript error value as observed by a catch block: either a thrown
Error (carrying a message) or a non-Error rejection value, as produced by an
img.onerror handler rejecting with an Event. -/
inductive JErr
  | decodeEvent
  | jsError (msg : String)
deriving DecidableEq, Repr

/-- The message a catch block reports:
`err instanceof Error ? err.message : 'An unknown error occurred.'`. -/
def msgOf : JErr → String
  | JErr.decodeEvent => "An unknown error occurred."
  | JErr.jsError m => m

/-- The first match of the JS regex /:(.*?);/ on a header: the earliest
colon that is followed by a semicolon, capturing lazily up to that first
semicolon. -/
def mimeScan : List Char → Option (List Char)
  | [] => none
  | c :: rest =>
    if c = ':' then
      if rest.contains ';' then some (rest.takeWhile (fun d => d ≠ ';')) else none
    else mimeScan rest

/-- JS String.prototype.split(',') over the character list. -/
def splitOnComma : List Char → List (List Char)
  | [] => [[]]
  | c :: rest =>
    if c = ',' then [] :: splitOnComma rest
    else
      match splitOnComma rest with
      | [] => [[c]]
      | p :: ps => (c :: p) :: ps

/-- The parsing performed by dataURLtoFile (App.tsx lines 27-41): split on
the comma, require at least two parts, and extract a nonempty MIME capture
from the header (an empty capture is falsy in JS and also rejected). -/
def parseDataUrl (dataurl : String) : Except String (String × String) :=
  match splitOnComma dataurl.toList with
  | [] => Except.error ("Invalid data URL")
  | [_] => Except.error ("Invalid data URL")
  | header :: payload :: _ =>
    match mimeScan header with
    | none => Except.error ("Could not parse MIME type from data URL")
    | some mimeChars =>
      if mimeChars = [] then Except.error ("Could not parse MIME type from data URL")
      else Except.ok (⟨mimeChars⟩, ⟨payload⟩)

/-- dataURLtoFile (App.tsx lines 27-41): builds a File from a data URL, or
throws on a malformed URL. -/
def dataURLtoFile (dataurl filename : String) : Except String FileV :=
  match parseDataUrl dataurl with
  | Except.error m => Except.error m
  | Except.ok (mime, data) => Except.ok ⟨filename, mime, data⟩

/-- A decoded image: its natural (native) pixel dimensions. -/
structure ImageV where
  naturalWidth : Nat
  naturalHeight : Nat
deriving DecidableEq, Repr

/-- A canvas as a value: its size and the ordered sequence of images drawn
onto it (source-over compositing is determined by this order). -/
structure CanvasV where
  width : Rat
  height : Rat
  draws : List ImageV
deriving DecidableEq, Repr

/-- A deterministic text encoding of a canvas, standing for
canvas.toDataURL('image/png'). -/
def canvasToDataUrl (c : CanvasV) : String :=
  "data:image/png;base64," ++
    c.draws.foldl
      (fun acc i => acc ++ "(" ++ toString i.naturalWidth ++ "x" ++ toString i.naturalHeight ++ ")")
      ""

/-- The sequential layer-decoding loop of flattenImage: each layer raster is
decoded in list order; the first failing decode rejects the whole loop
(img.onerror), so no later layer is drawn. -/
def decodeLayers (decodeData : String → Option ImageV) : List Layer → Option (List ImageV)
  | [] => some []
  | l :: ls =>
    match decodeData l.imageUrl with
    | none => none
    | some img => (decodeLayers decodeData ls).map (fun rest => img :: rest)

/-- flattenImage (App.tsx lines 309-340), for a present current entry `cur`.
`decodeUrl` decodes the base object URL, `decodeData` decodes a layer data
URL, `ctxOk` models canvas.getContext('2d') succeeding.  The result is
`none` when the base image never decodes (its load promise has no onerror
handler, so the function suspends forever), and otherwise the settled
promise: a rejection with the onerror Event, or the flattened file.  With no
layers the base file is returned unchanged; the timestamp suffix of the
generated filename is elided. -/
def flattenImage (decodeUrl : Nat → Option ImageV) (decodeData : String → Option ImageV)
    (ctxOk : Bool) (cur : AppState) : Option (Except JErr FileV) :=
  if cur.layers.length = 0 then some (Except.ok cur.imageFile)
  else
    match decodeUrl cur.imageUrl with
    | none => none
    | some baseImg =>
      if ctxOk = false then some (Except.ok cur.imageFile)
      else
        match decodeLayers decodeData cur.layers with
        | none => some (Except.error JErr.decodeEvent)
        | some imgs =>
          let canvas : CanvasV :=
            ⟨(baseImg.naturalWidth : Rat), (baseImg.naturalHeight : Rat), baseImg :: imgs⟩
          match dataURLtoFile (canvasToDataUrl canvas) ("flattened.png") with
          | Except.error m => some (Except.error (JErr.jsError m))
          | Except.ok f => some (Except.ok f)

/-- The observable outcome of one asynchronous mutating operation: the
operation's promise never settles (`hung`, an await that can never resolve),
it rejects with no catch on the path (`rejected`, the loading message is
left as it was at the rejection point), or it runs to completion (`done`,
with the error message reported to the user, if any; the loading message
has been cleared). -/
inductive OpOutcome
  | hung (st : HistoryState) (loading : Option String)
  | rejected (st : HistoryState) (loading : Option String)
  | done (st : HistoryState) (errMsg : Option String)
deriving DecidableEq, Repr

/-- The history store left behind by an operation outcome. -/
def outcomeHist : OpOutcome → HistoryState
  | OpOutcome.hung st _ => st
  | OpOutcome.rejected st _ => st
  | OpOutcome.done st _ => st

/-- The edit tool (type EditTool in App.tsx). -/
inductive EditTool
  | point
  | brush
  | erase
deriving DecidableEq, Repr

/-- JS String.prototype.trim over the character list (structural, so that
it evaluates inside the kernel). -/
def jsTrim (s : String) : String :=
  ⟨((s.toList.dropWhile (fun c => c.isWhitespace)).reverse.dropWhile
      (fun c => c.isWhitespace)).reverse⟩

/-- The layer-replacement function of handleGenerate's active-layer branch:
`currentLayers.map(l => l.id === activeLayer.id ? updatedLayer : l)` with
`updatedLayer = { ...activeLayer, imageUrl, prompt }`. -/
def replaceLayer (al : Layer) (url pt : String) (l : Layer) : Layer :=
  if l.id = al.id then { al with imageUrl := url, prompt := pt } else l

/-- handleGenerate (App.tsx lines 180-236).  `serviceResult` is the settled
result of the awaited generateEditedImage call; `newId` stands for the
Date.now() identifier minted for a fresh layer.  The input guards return
before any mutation; a service rejection is caught and leaves the store
untouched; a success pushes one fully-formed entry. -/
def handleGenerate (s : HistoryState) (activeLayerId : Option String) (promptText : String)
    (activeTool : EditTool) (editHotspot : Option (Rat × Rat)) (maskImage : Option String)
    (newId : String) (serviceResult : Except JErr String) : OpOutcome :=
  match current s with
  | none => OpOutcome.done s (some ("No image loaded to edit."))
  | some cur =>
    let activeLayer := cur.layers.find? (fun l => activeLayerId = some l.id)
    if jsTrim promptText = "" then
      OpOutcome.done s (some (match activeLayer with
        | some _ => "Please describe your changes to the layer."
        | none => "Please enter a description for your edit."))
    else
      let hasPointSelection := activeTool == EditTool.point && editHotspot.isSome
      let hasBrushSelection := activeTool != EditTool.point && maskImage.isSome
      if activeLayer.isNone && !hasPointSelection && !hasBrushSelection then
        OpOutcome.done s (some ("Please select an area on the image to edit."))
      else
        let hotspotOpt := if hasPointSelection then editHotspot else none
        let maskOpt := if hasBrushSelection then maskImage else none
        if hotspotOpt.isNone && maskOpt.isNone then
          OpOutcome.done s
            (some ("Failed to generate the image. Either a hotspot or a mask is required for editing."))
        else
          match serviceResult with
          | Except.error e =>
            OpOutcome.done s (some ("Failed to generate the image. " ++ msgOf e))
          | Except.ok newLayerUrl =>
            match activeLayer with
            | some al =>
              let newLayers := cur.layers.map (replaceLayer al newLayerUrl promptText)
              OpOutcome.done (addImageToHistory s { cur with layers := newLayers }) none
            | none =>
              let newLayer : Layer := ⟨newId, newLayerUrl, promptText⟩
              OpOutcome.done (addImageToHistory s { cur with layers := cur.layers ++ [newLayer] }) none

/-- handleRemove (App.tsx lines 238-272).  The flatten, the service call and
the data-URL repackaging all happen inside the try block; any failure is
caught, reported, and pushes nothing.  `nextUrl` is the object URL handle
minted by URL.createObjectURL for the new base; filename timestamps are
elided. -/
def handleRemove (decodeUrl : Nat → Option ImageV) (decodeData : String → Option ImageV)
    (ctxOk : Bool) (s : HistoryState) (maskImage : Option String)
    (serviceResult : Except JErr String) (nextUrl : Nat) : OpOutcome :=
  match current s, maskImage with
  | none, _ => OpOutcome.done s (some ("Please use the brush to select an area to remove."))
  | some _, none => OpOutcome.done s (some ("Please use the brush to select an area to remove."))
  | some cur, some _ =>
    match flattenImage decodeUrl decodeData ctxOk cur with
    | none => OpOutcome.hung s (some ("Removing selected object..."))
    | some (Except.error e) =>
      OpOutcome.done s (some ("Failed to remove the object. " ++ msgOf e))
    | some (Except.ok _) =>
      match serviceResult with
      | Except.error e =>
        OpOutcome.done s (some ("Failed to remove the object. " ++ msgOf e))
      | Except.ok editedImageUrl =>
        match dataURLtoFile editedImageUrl ("removed.png") with
        | Except.error m =>
          OpOutcome.done s (some ("Failed to remove the object. " ++ m))
        | Except.ok newImageFile =>
          OpOutcome.done (addImageToHistory s ⟨newImageFile, nextUrl, []⟩) none

/-- handleApplyGlobalEdit (App.tsx lines 274-307): same try/catch shape as
handleRemove, with the operation-specific loading `message` and without the
mask guard.  A successful result pushes a layer-free entry with a fresh base.
-/
def handleApplyGlobalEdit (decodeUrl : Nat → Option ImageV) (decodeData : String → Option ImageV)
    (ctxOk : Bool) (s : HistoryState) (message : String)
    (serviceResult : Except JErr String) (nextUrl : Nat) : OpOutcome :=
  match current s with
  | none => OpOutcome.done s (some ("No image loaded to apply an edit to."))
  | some cur =>
    match flattenImage decodeUrl decodeData ctxOk cur with
    | none => OpOutcome.hung s (some message)
    | some (Except.error e) =>
      OpOutcome.done s (some ("Failed to apply the edit. " ++ msgOf e))
    | some (Except.ok _) =>
      match serviceResult with
      | Except.error e =>
        OpOutcome.done s (some ("Failed to apply the edit. " ++ msgOf e))
      | Except.ok editedImageUrl =>
        match dataURLtoFile editedImageUrl ("edited.png") with
        | Except.error m =>
          OpOutcome.done s (some ("Failed to apply the edit. " ++ m))
        | Except.ok newImageFile =>
          OpOutcome.done (addImageToHistory s ⟨newImageFile, nextUrl, []⟩) none

/-- handleDeleteLayer (App.tsx lines 582-594): filters the layer out of the
current entry's list and always pushes the resulting snapshot. -/
def handleDeleteLayer (s : HistoryState) (layerId : String) : HistoryState :=
  match current s with
  | none => s
  | some cur =>
    addImageToHistory s { cur with layers := cur.layers.filter (fun l => l.id != layerId) }

/-- The completed react-image-crop selection (PixelCrop). -/
structure PixelCropV where
  x : Rat
  y : Rat
  width : Rat
  height : Rat
deriving DecidableEq, Repr

/-- handleApplyCrop (App.tsx lines 342-403).  Unlike every other mutating
operation, the `await flattenImage()` sits outside any try/catch: a layer
decode failure rejects the handler's promise with nothing to catch it, the
loading message is never cleared, and no error is reported.  With no current
entry, flattenImage returns the null currentImageFile and
URL.createObjectURL(null) throws, also uncaught.  `decodeFile` decodes the
flattened file for the crop draw (its load has no onerror handler, so an
undecodable flattened file suspends forever); `cropCtxOk` models the second
getContext call. -/
def handleApplyCrop (decodeUrl : Nat → Option ImageV) (decodeData : String → Option ImageV)
    (decodeFile : FileV → Option ImageV) (ctxOk cropCtxOk : Bool)
    (s : HistoryState) (completedCrop : Option PixelCropV) (imgRefSize : Option (Rat × Rat))
    (pixelRatio : Rat) (nextUrl : Nat) : OpOutcome :=
  match completedCrop, imgRefSize with
  | none, _ => OpOutcome.done s (some ("Please select an area to crop."))
  | some _, none => OpOutcome.done s (some ("Please select an area to crop."))
  | some cc, some _refSize =>
    match current s with
    | none => OpOutcome.rejected s (some ("Applying crop..."))
    | some cur =>
      match flattenImage decodeUrl decodeData ctxOk cur with
      | none => OpOutcome.hung s (some ("Applying crop..."))
      | some (Except.error _) => OpOutcome.rejected s (some ("Applying crop..."))
      | some (Except.ok flattenedFile) =>
        match decodeFile flattenedFile with
        | none => OpOutcome.hung s (some ("Applying crop..."))
        | some img =>
          if cropCtxOk = false then OpOutcome.done s (some ("Could not process the crop."))
          else
            let canvas : CanvasV := ⟨cc.width * pixelRatio, cc.height * pixelRatio, [img]⟩
            match dataURLtoFile (canvasToDataUrl canvas) ("cropped.png") with
            | Except.error _ => OpOutcome.rejected s (some ("Applying crop..."))
            | Except.ok newImageFile =>
              OpOutcome.done (addImageToHistory s ⟨newImageFile, nextUrl, []⟩) none

lemma current_some_bounds (s : HistoryState) (cur : AppState) (h : current s = some cur) :
    0 ≤ s.historyIndex ∧ s.historyIndex.toNat < s.history.length ∧
      s.history.get? s.historyIndex.toNat = some cur := by
  unfold current at h
  by_cases h0 : s.historyIndex < 0
  · rw [if_pos h0] at h
    exact absurd h (by simp)
  · rw [if_neg h0] at h
    exact ⟨by omega, (List.get?_eq_some.mp h).1, h⟩

lemma current_push (s : HistoryState) (n : AppState) :
    current (addImageToHistory s n) = some n := by
  unfold current addImageToHistory
  dsimp only
  generalize s.history.take (s.historyIndex + 1).toNat = T
  have h1 : (((T ++ [n]).length : Int) - 1).toNat = T.length := by
    simp only [List.length_append, List.length_singleton]
    omega
  rw [if_neg (by simp only [List.length_append, List.length_singleton]; omega), h1]
  exact List.get?_concat_length T n

lemma push_index_of_current (s : HistoryState) (cur n : AppState)
    (h : current s = some cur) :
    (addImageToHistory s n).historyIndex = s.historyIndex + 1 := by
  obtain ⟨h0, hlt, _⟩ := current_some_bounds s cur h
  have hk : (s.historyIndex + 1).toNat = s.historyIndex.toNat + 1 := by omega
  rw [addImageToHistory_historyIndex, addImageToHistory_history, hk]
  simp only [List.length_append, List.length_take, List.length_singleton]
  have hmin : min (s.historyIndex.toNat + 1) s.history.length = s.historyIndex.toNat + 1 := by
    omega
  rw [hmin]
  omega

lemma push_keeps_current_entry (s : HistoryState) (cur n : AppState)
    (h : current s = some cur) :
    (addImageToHistory s n).history.get? s.historyIndex.toNat = some cur := by
  obtain ⟨h0, hlt, hget⟩ := current_some_bounds s cur h
  have hk : (s.historyIndex + 1).toNat = s.historyIndex.toNat + 1 := by omega
  rw [addImageToHistory_history, hk]
  have hlen : s.historyIndex.toNat < (s.history.take (s.historyIndex.toNat + 1)).length := by
    rw [List.length_take]
    omega
  rw [List.get?_append hlen, List.get?_take (Nat.lt_succ_self _)]
  exact hget

lemma push_length_of_current (s : HistoryState) (cur n : AppState)
    (h : current s = some cur) :
    (addImageToHistory s n).history.length = s.historyIndex.toNat + 2 := by
  obtain ⟨h0, hlt, _⟩ := current_some_bounds s cur h
  have hk : (s.historyIndex + 1).toNat = s.historyIndex.toNat + 1 := by omega
  rw [addImageToHistory_history, hk]
  simp only [List.length_append, List.length_take, List.length_singleton]
  omega

lemma undo_redo_roundtrip (s : HistoryState) (n : AppState) :
    handleRedo (handleUndo (addImageToHistory s n)) = addImageToHistory s n := by
  have h1 := addImageToHistory_historyIndex s n
  have h2 := addImageToHistory_length_pos s n
  unfold handleUndo
  split_ifs with hgt
  · unfold handleRedo
    dsimp only
    rw [if_pos (by omega)]
    have h3 : (addImageToHistory s n).historyIndex - 1 + 1 = (addImageToHistory s n).historyIndex := by
      omega
    simp [h3]
  · exact handleRedo_noop (addImageToHistory s n) (by omega)

lemma handleGenerate_error_hist (s : HistoryState) (activeLayerId : Option String)
    (promptText : String) (tool : EditTool) (hotspot : Option (Rat × Rat))
    (maskSel : Option String) (newId : String) (e : JErr) :
    outcomeHist (handleGenerate s activeLayerId promptText tool hotspot maskSel newId
      (Except.error e)) = s := by
  unfold handleGenerate
  rcases current s with _ | cur
  · rfl
  · dsimp only
    split_ifs <;> rfl

lemma handleRemove_error_hist (decodeUrl : Nat → Option ImageV)
    (decodeData : String → Option ImageV) (ctxOk : Bool) (s : HistoryState)
    (maskImage : Option String) (e : JErr) (nextUrl : Nat) :
    outcomeHist (handleRemove decodeUrl decodeData ctxOk s maskImage (Except.error e) nextUrl)
      = s := by
  unfold handleRemove
  rcases current s with _ | cur
  · rfl
  · rcases maskImage with _ | m
    · rfl
    · dsimp only
      rcases flattenImage decodeUrl decodeData ctxOk cur with _ | r
      · rfl
      · rcases r with e' | f <;> rfl

lemma handleRemove_flatten_error_hist (decodeUrl : Nat → Option ImageV)
    (decodeData : String → Option ImageV) (ctxOk : Bool) (s : HistoryState) (cur : AppState)
    (m : String) (res : Except JErr String) (nextUrl : Nat)
    (hcur : current s = some cur)
    (hflat : flattenImage decodeUrl decodeData ctxOk cur = some (Except.error JErr.decodeEvent)) :
    outcomeHist (handleRemove decodeUrl decodeData ctxOk s (some m) res nextUrl) = s := by
  unfold handleRemove
  rw [hcur]
  dsimp only
  rw [hflat]
  rfl

lemma handleRemove_badurl_hist (decodeUrl : Nat → Option ImageV)
    (decodeData : String → Option ImageV) (ctxOk : Bool) (s : HistoryState)
    (m url msg : String) (nextUrl : Nat)
    (hurl : parseDataUrl url = Except.error msg) :
    outcomeHist (handleRemove decodeUrl decodeData ctxOk s (some m) (Except.ok url) nextUrl)
      = s := by
  unfold handleRemove
  rcases current s with _ | cur
  · rfl
  · dsimp only
    rcases flattenImage decodeUrl decodeData ctxOk cur with _ | r
    · rfl
    · rcases r with e' | f
      · rfl
      · dsimp only
        unfold dataURLtoFile
        rw [hurl]
        rfl

lemma handleApplyGlobalEdit_error_hist (decodeUrl : Nat → Option ImageV)
    (decodeData : String → Option ImageV) (ctxOk : Bool) (s : HistoryState)
    (message : String) (e : JErr) (nextUrl : Nat) :
    outcomeHist (handleApplyGlobalEdit decodeUrl decodeData ctxOk s message (Except.error e)
      nextUrl) = s := by
  unfold handleApplyGlobalEdit
  rcases current s with _ | cur
  · rfl
  · dsimp only
    rcases flattenImage decodeUrl decodeData ctxOk cur with _ | r
    · rfl
    · rcases r with e' | f <;> rfl

lemma handleApplyGlobalEdit_flatten_error_hist (decodeUrl : Nat → Option ImageV)
    (decodeData : String → Option ImageV) (ctxOk : Bool) (s : HistoryState) (cur : AppState)
    (message : String) (res : Except JErr String) (nextUrl : Nat)
    (hcur : current s = some cur)
    (hflat : flattenImage decodeUrl decodeData ctxOk cur = some (Except.error JErr.decodeEvent)) :
    outcomeHist (handleApplyGlobalEdit decodeUrl decodeData ctxOk s message res nextUrl) = s := by
  unfold handleApplyGlobalEdit
  rw [hcur]
  dsimp only
  rw [hflat]
  rfl

lemma handleApplyGlobalEdit_badurl_hist (decodeUrl : Nat → Option ImageV)
    (decodeData : String → Option ImageV) (ctxOk : Bool) (s : HistoryState)
    (message url msg : String) (nextUrl : Nat)
    (hurl : parseDataUrl url = Except.error msg) :
    outcomeHist (handleApplyGlobalEdit decodeUrl decodeData ctxOk s message (Except.ok url)
      nextUrl) = s := by
  unfold handleApplyGlobalEdit
  rcases current s with _ | cur
  · rfl
  · dsimp only
    rcases flattenImage decodeUrl decodeData ctxOk cur with _ | r
    · rfl
    · rcases r with e' | f
      · rfl
      · dsimp only
        unfold dataURLtoFile
        rw [hurl]
        rfl

/-- Claim C3: a mutating operation (generate-layer, object removal, global
edit) whose external AI call or result handling fails pushes nothing: the
resulting history store (array, pointer and release ledger) is exactly the
pre-operation store.  The failure may be the service rejecting, the flatten
step rejecting on a corrupt layer, or the returned data URL failing to
parse. -/
theorem failed_ops_leave_history_unchanged
    (decodeUrl decodeUrl2 : Nat → Option ImageV)
    (decodeData decodeData2 : String → Option ImageV)
    (ctxOk ctxOk2 : Bool) (s : HistoryState) (cur : AppState)
    (activeLayerId : Option String) (promptText maskStr url msg message newId : String)
    (tool : EditTool) (hotspot : Option (Rat × Rat)) (maskSel : Option String)
    (e : JErr) (res : Except JErr String) (nextUrl : Nat)
    (hcur : current s = some cur)
    (hflat : flattenImage decodeUrl2 decodeData2 ctxOk2 cur = some (Except.error JErr.decodeEvent))
    (hurl : parseDataUrl url = Except.error msg) :
    outcomeHist (handleGenerate s activeLayerId promptText tool hotspot maskSel newId
        (Except.error e)) = s
    ∧ outcomeHist (handleRemove decodeUrl decodeData ctxOk s (some maskStr) (Except.error e)
        nextUrl) = s
    ∧ outcomeHist (handleRemove decodeUrl2 decodeData2 ctxOk2 s (some maskStr) res nextUrl) = s
    ∧ outcomeHist (handleRemove decodeUrl decodeData ctxOk s (some maskStr) (Except.ok url)
        nextUrl) = s
    ∧ outcomeHist (handleApplyGlobalEdit decodeUrl decodeData ctxOk s message (Except.error e)
        nextUrl) = s
    ∧ outcomeHist (handleApplyGlobalEdit decodeUrl2 decodeData2 ctxOk2 s message res nextUrl) = s
    ∧ outcomeHist (handleApplyGlobalEdit decodeUrl decodeData ctxOk s message (Except.ok url)
        nextUrl) = s :=
  ⟨handleGenerate_error_hist s activeLayerId promptText tool hotspot maskSel newId e,
   handleRemove_error_hist decodeUrl decodeData ctxOk s (some maskStr) e nextUrl,
   handleRemove_flatten_error_hist decodeUrl2 decodeData2 ctxOk2 s cur maskStr res nextUrl
     hcur hflat,
   handleRemove_badurl_hist decodeUrl decodeData ctxOk s maskStr url msg nextUrl hurl,
   handleApplyGlobalEdit_error_hist decodeUrl decodeData ctxOk s message e nextUrl,
   handleApplyGlobalEdit_flatten_error_hist decodeUrl2 decodeData2 ctxOk2 s cur message res
     nextUrl hcur hflat,
   handleApplyGlobalEdit_badurl_hist decodeUrl decodeData ctxOk s message url msg nextUrl hurl⟩

/-- A layer whose raster data URL will be made undecodable by the oracle. -/
def crLayer : Layer := ⟨"L1", "data:image/png;base64,BAD1", "p"⟩

/-- A current entry with one (undecodable) layer, owning object URL 3. -/
def crEntry : AppState := ⟨fileA, 3, [crLayer]⟩

/-- A one-entry store whose current entry is `crEntry`. -/
def crState : HistoryState := ⟨[crEntry], 0, []⟩

/-- A decode oracle for object URLs: every base decodes to 500×300. -/
def duC : Nat → Option ImageV := fun _ => some ⟨500, 300⟩

/-- A decode oracle under which every layer data URL fails to decode. -/
def ddC : String → Option ImageV := fun _ => none

/-- A decode oracle under which every layer data URL decodes. -/
def ddGood : String → Option ImageV := fun _ => some ⟨500, 300⟩

/-- A decode oracle for files: every flattened file decodes. -/
def dfC : FileV → Option ImageV := fun _ => some ⟨500, 300⟩

/-- A completed crop selection. -/
def ccC : PixelCropV := ⟨0, 0, 100, 50⟩

/-- Claim C4 (code bug): flatten over an entry with an undecodable layer
raster rejects with the decode Event — no partial composite is produced —
and handleApplyCrop leaves the history store unchanged; but the rejection
escapes handleApplyCrop, whose flatten await sits outside any try/catch, so
the operation ends as an unhandled rejection with the loading message still
set instead of being recovered and reported at the operation boundary. -/
theorem crop_decode_error_unrecovered :
    flattenImage duC ddC true crEntry = some (Except.error JErr.decodeEvent)
    ∧ handleApplyCrop duC ddC dfC true true crState (some ccC) (some (400, 240)) 1 9
        = OpOutcome.rejected crState (some ("Applying crop...")) := ⟨rfl, rfl⟩

/-- Witness for C3: the instantiation of every failure mode on a concrete
one-entry store: a rejecting service call, a flatten rejection caused by the
undecodable layer of `crEntry`, and a service result that is not a data URL.
-/
theorem failed_ops_leave_history_unchanged_witness :
    outcomeHist (handleGenerate crState none "p" EditTool.point none none "77"
        (Except.error (JErr.jsError "boom"))) = crState
    ∧ outcomeHist (handleRemove duC ddGood true crState (some "m")
        (Except.error (JErr.jsError "boom")) 9) = crState
    ∧ outcomeHist (handleRemove duC ddC true crState (some "m") (Except.ok "x") 9) = crState
    ∧ outcomeHist (handleRemove duC ddGood true crState (some "m") (Except.ok "nonsense") 9)
        = crState
    ∧ outcomeHist (handleApplyGlobalEdit duC ddGood true crState "Applying adjustment..."
        (Except.error (JErr.jsError "boom")) 9) = crState
    ∧ outcomeHist (handleApplyGlobalEdit duC ddC true crState "Applying adjustment..."
        (Except.ok "x") 9) = crState
    ∧ outcomeHist (handleApplyGlobalEdit duC ddGood true crState "Applying adjustment..."
        (Except.ok "nonsense") 9) = crState :=
  failed_ops_leave_history_unchanged duC duC ddGood ddC true true crState crEntry none
    "p" "m" "nonsense" "Invalid data URL" "Applying adjustment..." "77" EditTool.point none none
    (JErr.jsError "boom") (Except.ok "x") 9 rfl rfl rfl

lemma filter_ne_id_eq_self (layers : List Layer) (lid : String)
    (hno : ∀ l ∈ layers, l.id ≠ lid) :
    layers.filter (fun l => l.id != lid) = layers :=
  List.filter_eq_self.mpr (fun a ha => by simpa using hno a ha)

/-- Claim C10: deleting a layer id that no layer of the current entry has
still pushes a duplicate snapshot: the new entry equals the previous current
entry (element-wise equal layer list), the pointer advances by one, and the
previous entry remains in place. -/
theorem delete_missing_layer_duplicate_push (s : HistoryState) (cur : AppState) (lid : String)
    (hcur : current s = some cur) (hno : ∀ l ∈ cur.layers, l.id ≠ lid) :
    (handleDeleteLayer s lid).historyIndex = s.historyIndex + 1
    ∧ current (handleDeleteLayer s lid) = some cur
    ∧ (handleDeleteLayer s lid).history.get? s.historyIndex.toNat = some cur
    ∧ (handleDeleteLayer s lid).history.length = s.historyIndex.toNat + 2 := by
  have heq : handleDeleteLayer s lid = addImageToHistory s cur := by
    unfold handleDeleteLayer
    rw [hcur]
    dsimp only
    rw [filter_ne_id_eq_self cur.layers lid hno]
  rw [heq]
  exact ⟨push_index_of_current s cur cur hcur, current_push s cur,
    push_keeps_current_entry s cur cur hcur, push_length_of_current s cur cur hcur⟩

/-- A concrete layer with id A. -/
def layerD : Layer := ⟨"A", "data:image/png;base64,DDDD", "p"⟩

/-- A concrete current entry holding `layerD`, owning object URL 7. -/
def entryD : AppState := ⟨fileA, 7, [layerD]⟩

/-- A one-entry store whose current entry is `entryD`. -/
def stateD : HistoryState := ⟨[entryD], 0, []⟩

/-- Witness for C10: deleting the absent layer id ZZZ from `stateD`. -/
theorem delete_missing_layer_duplicate_push_witness :
    (handleDeleteLayer stateD "ZZZ").historyIndex = stateD.historyIndex + 1
    ∧ current (handleDeleteLayer stateD "ZZZ") = some entryD
    ∧ (handleDeleteLayer stateD "ZZZ").history.get? stateD.historyIndex.toNat = some entryD
    ∧ (handleDeleteLayer stateD "ZZZ").history.length = stateD.historyIndex.toNat + 2 :=
  delete_missing_layer_duplicate_push stateD entryD "ZZZ" rfl (by decide)

lemma handleGenerate_ok_no_active (s : HistoryState) (cur : AppState)
    (activeLayerId : Option String) (promptText maskStr newId url : String)
    (hcur : current s = some cur) (hpt : jsTrim promptText ≠ "")
    (hal : cur.layers.find? (fun l => activeLayerId = some l.id) = none) :
    handleGenerate s activeLayerId promptText EditTool.brush none (some maskStr) newId
        (Except.ok url)
      = OpOutcome.done
          (addImageToHistory s { cur with layers := cur.layers ++ [⟨newId, url, promptText⟩] })
          none := by
  unfold handleGenerate
  rw [hcur]
  dsimp only
  rw [hal, if_neg hpt]
  rfl

lemma handleGenerate_ok_active (s : HistoryState) (cur : AppState) (al : Layer)
    (activeLayerId : Option String) (promptText maskStr newId url : String)
    (hcur : current s = some cur) (hpt : jsTrim promptText ≠ "")
    (hal : cur.layers.find? (fun l => activeLayerId = some l.id) = some al) :
    handleGenerate s activeLayerId promptText EditTool.brush none (some maskStr) newId
        (Except.ok url)
      = OpOutcome.done
          (addImageToHistory s
            { cur with layers := cur.layers.map (replaceLayer al url promptText) })
          none := by
  unfold handleGenerate
  rw [hcur]
  dsimp only
  rw [hal, if_neg hpt]
  rfl

lemma map_replace_preserves_ids (layers : List Layer) (al : Layer) (url pt : String) :
    (layers.map (replaceLayer al url pt)).map (fun l => l.id) = layers.map (fun l => l.id) := by
  induction layers with
  | nil => rfl
  | cons x xs ih =>
    simp only [List.map_cons, ih]
    congr 1
    unfold replaceLayer
    split_ifs with h
    · exact h.symm
    · rfl

/-- Claim C5: a generated edit while a layer is active replaces that layer's
raster and prompt in place (the id list of the entry is unchanged); with no
active layer a fresh layer is appended at the end; and undo followed by redo
brings back exactly the pushed entry, so layer ids and raster contents are
those from before the undo. -/
theorem generate_active_layer_semantics (s : HistoryState) (cur : AppState)
    (activeLayerId : Option String) (promptText maskStr newId url : String)
    (hcur : current s = some cur) (hpt : jsTrim promptText ≠ "") :
    (∀ al, cur.layers.find? (fun l => activeLayerId = some l.id) = some al →
        handleGenerate s activeLayerId promptText EditTool.brush none (some maskStr) newId
            (Except.ok url)
          = OpOutcome.done
              (addImageToHistory s
                { cur with layers := cur.layers.map (replaceLayer al url promptText) })
              none
        ∧ (cur.layers.map (replaceLayer al url promptText)).map (fun l => l.id)
            = cur.layers.map (fun l => l.id))
    ∧ (cur.layers.find? (fun l => activeLayerId = some l.id) = none →
        handleGenerate s activeLayerId promptText EditTool.brush none (some maskStr) newId
            (Except.ok url)
          = OpOutcome.done
              (addImageToHistory s
                { cur with layers := cur.layers ++ [⟨newId, url, promptText⟩] })
              none)
    ∧ (∀ n : AppState, current (handleRedo (handleUndo (addImageToHistory s n)))
        = current (addImageToHistory s n)) :=
  ⟨fun al hal =>
    ⟨handleGenerate_ok_active s cur al activeLayerId promptText maskStr newId url hcur hpt hal,
     map_replace_preserves_ids cur.layers al url promptText⟩,
   fun hal =>
     handleGenerate_ok_no_active s cur activeLayerId promptText maskStr newId url hcur hpt hal,
   fun n => by rw [undo_redo_roundtrip]⟩

/-- Witness for C5: the one-layer store `stateD` with active layer id A and
prompt `add hat`. -/
theorem generate_active_layer_semantics_witness :
    (∀ al, entryD.layers.find? (fun l => (some "A" : Option String) = some l.id) = some al →
        handleGenerate stateD (some "A") "add hat" EditTool.brush none (some "m") "9"
            (Except.ok "data:new")
          = OpOutcome.done
              (addImageToHistory stateD
                { entryD with layers := entryD.layers.map (replaceLayer al "data:new" "add hat") })
              none
        ∧ (entryD.layers.map (replaceLayer al "data:new" "add hat")).map (fun l => l.id)
            = entryD.layers.map (fun l => l.id))
    ∧ (entryD.layers.find? (fun l => (some "A" : Option String) = some l.id) = none →
        handleGenerate stateD (some "A") "add hat" EditTool.brush none (some "m") "9"
            (Except.ok "data:new")
          = OpOutcome.done
              (addImageToHistory stateD
                { entryD with layers := entryD.layers ++ [⟨"9", "data:new", "add hat"⟩] })
              none)
    ∧ (∀ n : AppState, current (handleRedo (handleUndo (addImageToHistory stateD n)))
        = current (addImageToHistory stateD n)) :=
  generate_active_layer_semantics stateD entryD (some "A") "add hat" "m" "9" "data:new"
    rfl (by decide)

/-- A base-only entry owning object URL 6. -/
def entryR : AppState := ⟨fileA, 6, []⟩

/-- A one-entry store owning object URL 6, with an empty release ledger. -/
def stateR : HistoryState := ⟨[entryR], 0, []⟩

/-- Counterexample for C6: on a store whose single entry owns object URL 6,
handleUploadNew empties the store but releases nothing (the ledger stays
empty, so URL 6 is never revoked), and handleReset does not even empty the
store — so no reset operation both empties the store and releases every
owned resource, contrary to the claim. -/
theorem reset_releases_nothing_counterexample :
    stateR.history.map (fun st => st.imageUrl) = [6]
    ∧ (handleUploadNew stateR).history = []
    ∧ (handleUploadNew stateR).released = []
    ∧ handleReset stateR = stateR := ⟨rfl, rfl, rfl, rfl⟩

/-- Claim C6 (amended): handleUploadNew empties the store (length 0, pointer
−1) but leaves the release ledger unchanged — no owned resource is revoked —
while handleReset keeps the whole history array and only moves the pointer
back to 0; resources are only ever released by a branch-discarding push. -/
theorem reset_and_uploadNew_behavior (s : HistoryState) (h : 0 < s.history.length) :
    (handleUploadNew s).history = []
    ∧ (handleUploadNew s).historyIndex = -1
    ∧ (handleUploadNew s).released = s.released
    ∧ (handleReset s).history = s.history
    ∧ (handleReset s).released = s.released
    ∧ (handleReset s).historyIndex = 0 := by
  refine ⟨rfl, rfl, rfl, ?_, ?_, ?_⟩ <;> unfold handleReset <;> rw [if_pos h]

/-- Witness for C6 (amended): evaluated on the nonempty store `stateR`. -/
theorem reset_and_uploadNew_behavior_witness :
    (handleUploadNew stateR).history = []
    ∧ (handleUploadNew stateR).historyIndex = -1
    ∧ (handleUploadNew stateR).released = stateR.released
    ∧ (handleReset stateR).history = stateR.history
    ∧ (handleReset stateR).released = stateR.released
    ∧ (handleReset stateR).historyIndex = 0 :=
  reset_and_uploadNew_behavior stateR (by decide)

/-- The unique-ownership predicate claimed for base rasters: no two entries
of the live history array reference the same base object URL. -/
def allDistinctBaseUrls : List AppState → Bool
  | [] => true
  | a :: rest => rest.all (fun b => a.imageUrl != b.imageUrl) && allDistinctBaseUrls rest

/-- A base-only entry owning object URL 5. -/
def entryS : AppState := ⟨fileA, 5, []⟩

/-- A one-entry store owning object URL 5. -/
def stateS : HistoryState := ⟨[entryS], 0, []⟩

/-- Counterexample for C7: after one successful layer generation on
`stateS`, the history holds two live entries whose base rasters are the same
object URL 5 — the new entry is built by object spread from the current one
(`{ ...currentState, layers: newLayers }`), so unique ownership fails. -/
theorem base_raster_unique_ownership_counterexample :
    allDistinctBaseUrls
      (outcomeHist (handleGenerate stateS none "hat" EditTool.brush none (some "m") "77"
        (Except.ok "data:image/png;base64,AAA"))).history = false := by decide

/-- Claim C7 (amended): a base raster may be referenced by two simultaneously
live entries: both a successful layer generation and a layer deletion push an
entry that reuses the previous current entry's base imageFile/imageUrl, so
the previous entry (still reachable via undo) and the new current entry
share the same base raster. -/
theorem base_raster_sharing_on_layer_ops (s : HistoryState) (cur : AppState)
    (activeLayerId : Option String) (promptText maskStr newId url lid : String)
    (hcur : current s = some cur) (hpt : jsTrim promptText ≠ "")
    (hal : cur.layers.find? (fun l => activeLayerId = some l.id) = none) :
    (outcomeHist (handleGenerate s activeLayerId promptText EditTool.brush none (some maskStr)
        newId (Except.ok url))).history.get? s.historyIndex.toNat = some cur
    ∧ (current (outcomeHist (handleGenerate s activeLayerId promptText EditTool.brush none
        (some maskStr) newId (Except.ok url)))).map (fun st => st.imageUrl)
          = some cur.imageUrl
    ∧ (handleDeleteLayer s lid).history.get? s.historyIndex.toNat = some cur
    ∧ (current (handleDeleteLayer s lid)).map (fun st => st.imageUrl) = some cur.imageUrl := by
  have hgen := handleGenerate_ok_no_active s cur activeLayerId promptText maskStr newId url
    hcur hpt hal
  have hdel : handleDeleteLayer s lid
      = addImageToHistory s { cur with layers := cur.layers.filter (fun l => l.id != lid) } := by
    unfold handleDeleteLayer
    rw [hcur]
  refine ⟨?_, ?_, ?_, ?_⟩
  · rw [hgen]
    exact push_keeps_current_entry s cur _ hcur
  · rw [hgen]
    show (current (addImageToHistory s _)).map (fun st => st.imageUrl) = some cur.imageUrl
    rw [current_push]
    rfl
  · rw [hdel]
    exact push_keeps_current_entry s cur _ hcur
  · rw [hdel, current_push]
    rfl

/-- Witness for C7 (amended): the store `stateS` with no active layer. -/
theorem base_raster_sharing_on_layer_ops_witness :
    (outcomeHist (handleGenerate stateS none "hat" EditTool.brush none (some "m")
        "77" (Except.ok "data:z"))).history.get? stateS.historyIndex.toNat = some entryS
    ∧ (current (outcomeHist (handleGenerate stateS none "hat" EditTool.brush none
        (some "m") "77" (Except.ok "data:z")))).map (fun st => st.imageUrl)
          = some entryS.imageUrl
    ∧ (handleDeleteLayer stateS "Q").history.get? stateS.historyIndex.toNat = some entryS
    ∧ (current (handleDeleteLayer stateS "Q")).map (fun st => st.imageUrl)
        = some entryS.imageUrl :=
  base_raster_sharing_on_layer_ops stateS entryS none "hat" "m" "77" "data:z" "Q"
    rfl (by decide) rfl

/-- A JavaScript number as the coordinate math observes it: a finite
rational, a signed infinity, or NaN.  (JS number arithmetic on the values
that occur here is exact, so the finite case carries a rational.) -/
inductive JNum
  | num (q : Rat)
  | posInf
  | negInf
  | nan
deriving DecidableEq, Repr

/-- JS division for the operand shapes reachable in the embedded code (both
operands finite): a nonzero dividend over zero gives a signed infinity,
0/0 gives NaN. -/
def jdiv : JNum → JNum → JNum
  | JNum.num a, JNum.num b =>
    if b = 0 then (if 0 < a then JNum.posInf else if a < 0 then JNum.negInf else JNum.nan)
    else JNum.num (a / b)
  | _, _ => JNum.nan

/-- JS multiplication: finite times infinity follows the sign table, zero
times infinity is NaN, NaN propagates. -/
def jmul : JNum → JNum → JNum
  | JNum.nan, _ => JNum.nan
  | _, JNum.nan => JNum.nan
  | JNum.num a, JNum.num b => JNum.num (a * b)
  | JNum.num a, JNum.posInf =>
    if 0 < a then JNum.posInf else if a < 0 then JNum.negInf else JNum.nan
  | JNum.num a, JNum.negInf =>
    if 0 < a then JNum.negInf else if a < 0 then JNum.posInf else JNum.nan
  | JNum.posInf, JNum.num b =>
    if 0 < b then JNum.posInf else if b < 0 then JNum.negInf else JNum.nan
  | JNum.negInf, JNum.num b =>
    if 0 < b then JNum.negInf else if b < 0 then JNum.posInf else JNum.nan
  | JNum.posInf, JNum.posInf => JNum.posInf
  | JNum.posInf, JNum.negInf => JNum.negInf
  | JNum.negInf, JNum.posInf => JNum.negInf
  | JNum.negInf, JNum.negInf => JNum.posInf

/-- JS Math.round: floor(x + 1/2) on finite numbers; infinities and NaN pass
through. -/
def jround : JNum → JNum
  | JNum.num q => JNum.num ((⌊q + 1/2⌋ : Int) : Rat)
  | x => x

/-- Whether a JS number is finite (neither an infinity nor NaN). -/
def JNum.isFinite : JNum → Bool
  | JNum.num _ => true
  | _ => false

/-- One axis of the display-to-native mapping of handleBaseImageClick
(App.tsx lines 546-566): `scale = natural/client` from the live-measured
element, then `Math.round(offset * scale)`. -/
def toNativeAxis (offset clientDim naturalDim : Rat) : JNum :=
  jround (jmul (JNum.num offset) (jdiv (JNum.num naturalDim) (JNum.num clientDim)))

/-- The hotspot computed by handleBaseImageClick: both axes of the
display-to-native conversion. -/
def handleBaseImageClickHotspot (offsetX offsetY clientWidth clientHeight
    naturalWidth naturalHeight : Rat) : JNum × JNum :=
  (toNativeAxis offsetX clientWidth naturalWidth,
   toNativeAxis offsetY clientHeight naturalHeight)

/-- Claim C8: with a nonzero displayed dimension, the conversion returns
round(displayPoint · (nativeDim/displayDim)); and it is linear: a point at
display fraction f of the displayed dimension maps to round(f · nativeDim),
independently of the displayed size. -/
theorem toNative_round_and_linear (p f c n : Rat) (hc : c ≠ 0) (hp : p = f * c) :
    toNativeAxis p c n = JNum.num ((⌊p * (n / c) + 1/2⌋ : Int) : Rat)
    ∧ toNativeAxis p c n = JNum.num ((⌊f * n + 1/2⌋ : Int) : Rat) := by
  have hd : jdiv (JNum.num n) (JNum.num c) = JNum.num (n / c) := by
    simp only [jdiv]
    rw [if_neg hc]
  have h1 : toNativeAxis p c n = JNum.num ((⌊p * (n / c) + 1/2⌋ : Int) : Rat) := by
    simp only [toNativeAxis, hd, jmul, jround]
  have h2 : p * (n / c) = f * n := by
    subst hp
    field_simp
    ring
  exact ⟨h1, by rw [h1, h2]⟩

/-- Witness for C8: mapping the display point at fraction 1/2 of a displayed
width 2 onto native width 500. -/
theorem toNative_round_and_linear_witness :
    toNativeAxis ((1/2) * 2) 2 500
        = JNum.num ((⌊((1/2) * 2 : Rat) * ((500 : Rat) / 2) + 1/2⌋ : Int) : Rat)
    ∧ toNativeAxis ((1/2) * 2) 2 500 = JNum.num ((⌊(1/2 : Rat) * 500 + 1/2⌋ : Int) : Rat) :=
  toNative_round_and_linear ((1/2) * 2) (1/2) 2 500 (by norm_num) rfl

/-- Counterexample for C9: with displayed width 0 the conversion does not
fail — there is no error path in handleBaseImageClick — it returns the
degenerate non-finite coordinate Infinity (offset 10, native width 500). -/
theorem toNative_zero_dim_returns_degenerate :
    toNativeAxis 10 0 500 = JNum.posInf
    ∧ JNum.isFinite (toNativeAxis 10 0 500) = false := by
  constructor <;> decide

/-- Claim C9 (amended): with a zero displayed dimension the conversion does
not signal an error; it always returns a degenerate non-finite coordinate
(Infinity, −Infinity or NaN, depending on the signs of offset and native
dimension). -/
theorem toNative_zero_dim_not_finite (o n : Rat) :
    JNum.isFinite (toNativeAxis o 0 n) = false := by
  unfold toNativeAxis
  have hd : jdiv (JNum.num n) (JNum.num 0)
      = if 0 < n then JNum.posInf else if n < 0 then JNum.negInf else JNum.nan := by
    simp [jdiv]
  rw [hd]
  split_ifs with h1 h2
  · show JNum.isFinite (jround (jmul (JNum.num o) JNum.posInf)) = false
    simp only [jmul]
    split_ifs <;> rfl
  · show JNum.isFinite (jround (jmul (JNum.num o) JNum.negInf)) = false
    simp only [jmul]
    split_ifs <;> rfl
  · show JNum.isFinite (jround (jmul (JNum.num o) JNum.nan)) = false
    simp only [jmul]
    rfl
